import Mathlib

/-!
Verification of the rent-vs-buy cost models.

The definitions below are a shallow embedding, over the real numbers, of the
repository's four source files:

  * `rent_vs_buy/utils.py` : fee schedules, continuous-rate conversion,
    mortgage payment and balance, opportunity cost;
  * `rent_vs_buy/buy.py`   : the `BuyConfiguration` dataclass (with its
    `__post_init__` normalisation) and the `buy` cost model;
  * `rent_vs_buy/rent.py`  : the `RentConfiguration` dataclass and the
    `rent` cost model.

Python floats are modelled as real numbers.  Real division is total in Lean
(`x / 0 = 0`); where a claim is about definedness of a division, a second
"guarded" version of the definition makes every division's zero-denominator
case observable as `Option.none` (those definitions carry a doc comment
saying so).  Fallible construction code (`__post_init__`, which can raise
`AttributeError` / `AssertionError` / `TypeError`) is modelled with `Except`.
-/

namespace RentVsBuy

noncomputable section

/-- Embeds `utils.seller_commission`:
`0.07 * min(100000, p) + 0.025 * max(0, p - 100000)`. -/
def seller_commission (home_price : ℝ) : ℝ :=
  let first_rate : ℝ := 0.07
  let second_rate : ℝ := 0.025
  let threshold : ℝ := 100000
  first_rate * min threshold home_price + second_rate * max 0 (home_price - threshold)

/-- Embeds `utils.buyer_commission`:
`0.03125 * min(100000, p) + 0.011625 * max(0, p - 100000)`. -/
def buyer_commission (home_price : ℝ) : ℝ :=
  let first_rate : ℝ := 0.03125
  let second_rate : ℝ := 0.011625
  let threshold : ℝ := 100000
  first_rate * min threshold home_price + second_rate * max 0 (home_price - threshold)

/-- Embeds `utils.property_transfer_tax`:
`0.01 * min(200000, p) + 0.02 * max(0, p - 200000)`. -/
def property_transfer_tax (home_price : ℝ) : ℝ :=
  let first_rate : ℝ := 0.01
  let second_rate : ℝ := 0.02
  let threshold : ℝ := 200000
  first_rate * min threshold home_price + second_rate * max 0 (home_price - threshold)

/-- Embeds `utils.continuous_rate`: `log((1 + annual_rate / n_compounds) ** n_compounds)`.
The `n_compounds: int = 1` parameter is modelled as a natural number. -/
def continuous_rate (annual_rate : ℝ) (n_compounds : ℕ := 1) : ℝ :=
  let annual_return : ℝ := (1 + annual_rate / (n_compounds : ℝ)) ^ n_compounds
  Real.log annual_return

/-- Embeds `utils.mortgage_payment`.  The `term: int = 25` annotation is not
enforced by Python and the value is only used in arithmetic, so it is
modelled as a real number. -/
def mortgage_payment (mortgage mortgage_rate : ℝ) (term : ℝ := 25) : ℝ :=
  let cr := continuous_rate mortgage_rate 2
  let discount_factor := cr * Real.exp (cr * term) / (Real.exp (cr * term) - 1)
  mortgage * discount_factor

/-- Embeds `utils.mortgage_balance`, returning
`(interest_cost, principal_cost, principal_balance)`.  The first line of the
source reassigns `years = min(years, term)`, mirrored by the shadowing `let`. -/
def mortgage_balance (years mortgage mortgage_rate : ℝ) (term : ℝ := 25) : ℝ × ℝ × ℝ :=
  let years := min years term
  let cr := continuous_rate mortgage_rate 2
  let annual_payment := mortgage_payment mortgage mortgage_rate term
  let total_cost := annual_payment * years
  let interest_cost :=
    (mortgage * cr - annual_payment) * (Real.exp (cr * years) - 1) / cr + annual_payment * years
  let principal_cost := total_cost - interest_cost
  (interest_cost, principal_cost, mortgage - principal_cost)

/-- Embeds `utils.opportunity_cost` (real division is total here; see
`opportunity_cost_guarded` for the definedness-tracking version). -/
def opportunity_cost (initial_cost recurring_costs years return_on_investment : ℝ) : ℝ :=
  let roi := continuous_rate return_on_investment 1
  let initial_opportunity := initial_cost * (Real.exp (roi * years) - 1)
  let recurring_opportunity :=
    recurring_costs / (years * 12) *
      ((Real.exp (roi / 12 * (years * 12)) - 1) / (Real.exp (roi / 12) - 1) - years * 12)
  initial_opportunity + recurring_opportunity

/-- Embeds `np.round`: round half to even (banker's rounding), as numpy does;
Mathlib's `round` rounds halves up, so halves are special-cased to the even
neighbour. -/
def np_round (x : ℝ) : ℝ :=
  if Int.fract x = 1 / 2 then ((2 * ⌊(x + 1) / 2⌋ : ℤ) : ℝ) else ((round x : ℤ) : ℝ)

/-- Embeds the module-level `tax_rates` dict of `buy.py` (rates in percent). -/
def tax_rates : List (String × ℝ) :=
  [("vancouver", 0.247), ("toronto", 0.636), ("montreal", 0.767), ("kelowna", 0.526),
   ("victoria", 0.520), ("abbotsford", 0.513), ("calgary", 0.636), ("edmonton", 0.869),
   ("lethbridge", 1.11), ("burlington", 0.816), ("ottawa", 1.068), ("mississauga", 0.823),
   ("waterloo", 1.11), ("kitchener", 1.13), ("hamilton", 1.26), ("guelph", 1.17),
   ("london", 1.35), ("saint john", 1.79), ("fredericton", 1.42), ("saskatoon", 0.866),
   ("regina", 1.07), ("quebec", 0.878), ("st. jonh's", 0.730), ("halifax", 1.11),
   ("winnipeg", 1.25)]

/-- The exceptions `BuyConfiguration.__post_init__` can raise: reading the
nonexistent `self.home_price` attribute (the dataclass field is named
`price`), the failed `assert city in tax_rates`, and `None *= 12`. -/
inductive InitError where
  | attributeError (missing : String)
  | assertionError (msg : String)
  | typeError (msg : String)
deriving DecidableEq, Repr

/-- The raw fields of the `BuyConfiguration` dataclass, before
`__post_init__` runs, with the dataclass defaults. -/
structure BuyInputs where
  years : ℝ
  price : ℝ
  downpayment : ℝ := 20.0
  mortgage_rate : ℝ := 3.0
  mortgage_term : ℝ := 25
  appreciation : ℝ := 2.0
  return_on_investment : ℝ := 4.0
  inflation : ℝ := 2.0
  city : String := "vancouver"
  property_tax_rate : Option ℝ := none
  maintenance : Option ℝ := none
  strata_fee : Option ℝ := none
  insurance : Option ℝ := none
  utilities : ℝ := 100

/-- A `BuyConfiguration` after `__post_init__` succeeded: rates fractional,
monthly fees annualised. -/
structure BuyConfig where
  years : ℝ
  price : ℝ
  downpayment : ℝ
  mortgage_rate : ℝ
  mortgage_term : ℝ
  appreciation : ℝ
  return_on_investment : ℝ
  inflation : ℝ
  city : String
  property_tax_rate : ℝ
  maintenance : ℝ
  strata_fee : ℝ
  insurance : ℝ
  utilities : ℝ

/-- Models Python's `str.lower()` (character-wise lowercasing; the table
keys are ASCII).  Defined by structural recursion over the character list so
that concrete lookups reduce. -/
def str_lower (s : String) : String := String.mk (s.data.map Char.toLower)

/-- The tax-rate resolution step of `__post_init__`:
`if self.property_tax_rate is None: city = self.city.lower();
assert city in tax_rates, ...; self.property_tax_rate = tax_rates[city]`. -/
def resolve_tax_rate (city : String) (given : Option ℝ) : Except InitError ℝ :=
  match given with
  | some t => Except.ok t
  | none =>
    match tax_rates.lookup (str_lower city) with
    | some v => Except.ok v
    | none =>
      Except.error (InitError.assertionError
        ("Sorry, property tax rate for " ++ city ++ " is not known."))

/-- Embeds `BuyConfiguration.__post_init__`, in source order: the
`strata_fee`/`insurance` defaulting (which reads the nonexistent
`self.home_price` and so raises `AttributeError`), the jurisdiction assert,
the percentage conversions, and finally `self.maintenance *= 12` (which
raises `TypeError` when `maintenance` is the default `None`). -/
def buyInit (a : BuyInputs) : Except InitError BuyConfig :=
  match a.strata_fee with
  | none => Except.error (InitError.attributeError "home_price")
  | some strata_fee =>
    match a.insurance with
    | none => Except.error (InitError.attributeError "home_price")
    | some insurance =>
      match resolve_tax_rate a.city a.property_tax_rate with
      | Except.error e => Except.error e
      | Except.ok tax =>
        match a.maintenance with
        | none =>
          Except.error (InitError.typeError
            "unsupported operand type for *=: NoneType and int")
        | some maintenance =>
          Except.ok
            { years := a.years
              price := a.price
              downpayment := a.downpayment * 0.01
              mortgage_rate := a.mortgage_rate * 0.01
              mortgage_term := a.mortgage_term
              appreciation := a.appreciation * 0.01
              return_on_investment := a.return_on_investment * 0.01
              inflation := a.inflation * 0.01
              city := a.city
              property_tax_rate := tax * 0.01
              maintenance := maintenance * 12
              strata_fee := strata_fee * 12
              insurance := insurance * 12
              utilities := a.utilities * 12 }

/-- The local variables of `buy.buy` (also the lines of its `report`). -/
structure BuyBreakdown where
  down_payment_cost : ℝ
  buyer_commission_cost : ℝ
  property_tax_transfer_cost : ℝ
  initial_costs : ℝ
  interest_cost : ℝ
  principal_cost : ℝ
  balance : ℝ
  mortgage_payment_total : ℝ
  property_tax_total : ℝ
  maintenance_total : ℝ
  insurance_total : ℝ
  utilities_total : ℝ
  strata_fee_total : ℝ
  recurring_costs : ℝ
  opportunity_cost_total : ℝ
  final_home_price : ℝ
  seller_commission_cost : ℝ
  proceeds : ℝ
  net_cost : ℝ

/-- Embeds the body of `buy.buy` (line for line, before the final rounding). -/
def buyBreakdown (p : BuyConfig) : BuyBreakdown :=
  let years := p.years
  let r := continuous_rate p.appreciation 1
  let i := continuous_rate p.inflation 1
  let down_payment_cost := p.price * p.downpayment
  let buyer_commission_cost := buyer_commission p.price
  let property_tax_transfer_cost := property_transfer_tax p.price
  let initial_costs := down_payment_cost + buyer_commission_cost + property_tax_transfer_cost
  let mortgage_amount := p.price * (1 - p.downpayment)
  let mb := mortgage_balance years mortgage_amount p.mortgage_rate p.mortgage_term
  let interest_cost := mb.1
  let principal_cost := mb.2.1
  let balance := mb.2.2
  let mortgage_payment_total := interest_cost + principal_cost
  let property_tax_total :=
    p.property_tax_rate * p.price * (1 / r) * (Real.exp (r * years) - Real.exp (r * 0))
  let maintenance_total := p.maintenance * (1 / r) * (Real.exp (r * years) - Real.exp (r * 0))
  let insurance_total := p.insurance * (1 / i) * (Real.exp (i * years) - Real.exp (i * 0))
  let utilities_total := p.utilities * (1 / i) * (Real.exp (i * years) - Real.exp (i * 0))
  let strata_fee_total := p.strata_fee * (1 / i) * (Real.exp (i * years) - Real.exp (i * 0))
  let recurring_costs :=
    property_tax_total + maintenance_total + insurance_total + utilities_total +
      strata_fee_total + mortgage_payment_total
  let opportunity_cost_total :=
    opportunity_cost initial_costs recurring_costs years p.return_on_investment
  let final_home_price := p.price * Real.exp (r * years)
  let seller_commission_cost := seller_commission final_home_price
  let proceeds := final_home_price - seller_commission_cost - balance
  let net_cost := initial_costs + recurring_costs + opportunity_cost_total - proceeds
  { down_payment_cost := down_payment_cost
    buyer_commission_cost := buyer_commission_cost
    property_tax_transfer_cost := property_tax_transfer_cost
    initial_costs := initial_costs
    interest_cost := interest_cost
    principal_cost := principal_cost
    balance := balance
    mortgage_payment_total := mortgage_payment_total
    property_tax_total := property_tax_total
    maintenance_total := maintenance_total
    insurance_total := insurance_total
    utilities_total := utilities_total
    strata_fee_total := strata_fee_total
    recurring_costs := recurring_costs
    opportunity_cost_total := opportunity_cost_total
    final_home_price := final_home_price
    seller_commission_cost := seller_commission_cost
    proceeds := proceeds
    net_cost := net_cost }

/-- Embeds `buy.buy`'s return value: `np.round(net_cost)`. -/
def buy (p : BuyConfig) : ℝ := np_round (buyBreakdown p).net_cost

/-- The raw fields of the `RentConfiguration` dataclass, with defaults. -/
structure RentInputs where
  years : ℝ
  rent : ℝ
  deposit : Option ℝ := none
  rent_increase : ℝ := 2.0
  insurance : ℝ := 15
  return_on_investment : ℝ := 4.0
  inflation : ℝ := 2.0
  utilities : ℝ := 100

/-- A `RentConfiguration` after `__post_init__` (which cannot fail). -/
structure RentConfig where
  years : ℝ
  rent : ℝ
  deposit : ℝ
  rent_increase : ℝ
  insurance : ℝ
  return_on_investment : ℝ
  inflation : ℝ
  utilities : ℝ

/-- Embeds `RentConfiguration.__post_init__`: the deposit defaults to half a
month's rent (computed before `rent` is annualised), then the percentage and
monthly-to-annual conversions are applied. -/
def rentInit (a : RentInputs) : RentConfig :=
  let deposit := match a.deposit with
    | none => 0.5 * a.rent
    | some d => d
  { years := a.years
    rent := a.rent * 12
    deposit := deposit
    rent_increase := a.rent_increase * 0.01
    insurance := a.insurance
    return_on_investment := a.return_on_investment * 0.01
    inflation := a.inflation * 0.01
    utilities := a.utilities * 12 }

/-- The local variables of `rent.rent`. -/
structure RentBreakdown where
  initial_costs : ℝ
  insurance_total : ℝ
  rent_total : ℝ
  recurring_costs : ℝ
  opportunity_cost_total : ℝ
  proceeds : ℝ
  net_cost : ℝ

/-- Embeds the body of `rent.rent` (before the final rounding). -/
def rentBreakdown (p : RentConfig) : RentBreakdown :=
  let years := p.years
  let i := continuous_rate p.inflation 1
  let r := continuous_rate p.rent_increase 1
  let initial_costs := p.deposit
  let insurance_total := p.insurance * (1 / i) * (Real.exp (i * years) - Real.exp (i * 0))
  let rent_total := p.rent * (1 / r) * (Real.exp (r * years) - Real.exp (r * 0))
  let recurring_costs := rent_total + insurance_total
  let opportunity_cost_total :=
    opportunity_cost initial_costs recurring_costs years p.return_on_investment
  let proceeds := initial_costs
  let net_cost := initial_costs + recurring_costs + opportunity_cost_total - proceeds
  { initial_costs := initial_costs
    insurance_total := insurance_total
    rent_total := rent_total
    recurring_costs := recurring_costs
    opportunity_cost_total := opportunity_cost_total
    proceeds := proceeds
    net_cost := net_cost }

/-- Embeds `rent.rent`'s return value: `np.round(net_cost)`. -/
def rent (p : RentConfig) : ℝ := np_round (rentBreakdown p).net_cost

/-- Division with an explicit zero-denominator check.  Lean's real division
is total (`x / 0 = 0`), so the guarded definitions below use `safe_div` to
make Python's division-by-zero (a NaN/inf result, or `ZeroDivisionError`)
observable as `none`. -/
def safe_div (a b : ℝ) : Option ℝ := if b = 0 then none else some (a / b)

/-- `opportunity_cost` with its two divisions guarded: `none` exactly when a
denominator (`years * 12`, or `exp(roi / 12) - 1`) is zero. -/
def opportunity_cost_guarded
    (initial_cost recurring_costs years return_on_investment : ℝ) : Option ℝ :=
  let roi := continuous_rate return_on_investment 1
  let initial_opportunity := initial_cost * (Real.exp (roi * years) - 1)
  match safe_div recurring_costs (years * 12) with
  | none => none
  | some q =>
    match safe_div (Real.exp (roi / 12 * (years * 12)) - 1) (Real.exp (roi / 12) - 1) with
    | none => none
    | some s => some (initial_opportunity + q * (s - years * 12))

/-- `mortgage_payment` with its division guarded. -/
def mortgage_payment_guarded (mortgage mortgage_rate term : ℝ) : Option ℝ :=
  let cr := continuous_rate mortgage_rate 2
  match safe_div (cr * Real.exp (cr * term)) (Real.exp (cr * term) - 1) with
  | none => none
  | some discount_factor => some (mortgage * discount_factor)

/-- `mortgage_balance` with its divisions guarded. -/
def mortgage_balance_guarded (years mortgage mortgage_rate term : ℝ) :
    Option (ℝ × ℝ × ℝ) :=
  let years := min years term
  let cr := continuous_rate mortgage_rate 2
  match mortgage_payment_guarded mortgage mortgage_rate term with
  | none => none
  | some annual_payment =>
    let total_cost := annual_payment * years
    match safe_div ((mortgage * cr - annual_payment) * (Real.exp (cr * years) - 1)) cr with
    | none => none
    | some t =>
      let interest_cost := t + annual_payment * years
      let principal_cost := total_cost - interest_cost
      some (interest_cost, principal_cost, mortgage - principal_cost)

/-- The body of `buy.buy` with every division guarded (the repeated `1 / r`
and `1 / i` of the recurring-cost lines are guarded once each). -/
def buy_guarded (p : BuyConfig) : Option ℝ :=
  let years := p.years
  let r := continuous_rate p.appreciation 1
  let i := continuous_rate p.inflation 1
  let down_payment_cost := p.price * p.downpayment
  let initial_costs :=
    down_payment_cost + buyer_commission p.price + property_transfer_tax p.price
  let mortgage_amount := p.price * (1 - p.downpayment)
  match mortgage_balance_guarded years mortgage_amount p.mortgage_rate p.mortgage_term with
  | none => none
  | some mb =>
    let mortgage_payment_total := mb.1 + mb.2.1
    match safe_div 1 r with
    | none => none
    | some rr =>
      match safe_div 1 i with
      | none => none
      | some ii =>
        let property_tax_total :=
          p.property_tax_rate * p.price * rr * (Real.exp (r * years) - Real.exp (r * 0))
        let maintenance_total := p.maintenance * rr * (Real.exp (r * years) - Real.exp (r * 0))
        let insurance_total := p.insurance * ii * (Real.exp (i * years) - Real.exp (i * 0))
        let utilities_total := p.utilities * ii * (Real.exp (i * years) - Real.exp (i * 0))
        let strata_fee_total := p.strata_fee * ii * (Real.exp (i * years) - Real.exp (i * 0))
        let recurring_costs :=
          property_tax_total + maintenance_total + insurance_total + utilities_total +
            strata_fee_total + mortgage_payment_total
        match opportunity_cost_guarded initial_costs recurring_costs years
            p.return_on_investment with
        | none => none
        | some oc =>
          let final_home_price := p.price * Real.exp (r * years)
          let proceeds := final_home_price - seller_commission final_home_price - mb.2.2
          some (np_round (initial_costs + recurring_costs + oc - proceeds))

/-- The body of `rent.rent` with every division guarded. -/
def rent_guarded (p : RentConfig) : Option ℝ :=
  let years := p.years
  let i := continuous_rate p.inflation 1
  let r := continuous_rate p.rent_increase 1
  let initial_costs := p.deposit
  match safe_div 1 i with
  | none => none
  | some ii =>
    let insurance_total := p.insurance * ii * (Real.exp (i * years) - Real.exp (i * 0))
    match safe_div 1 r with
    | none => none
    | some rr =>
      let rent_total := p.rent * rr * (Real.exp (r * years) - Real.exp (r * 0))
      let recurring_costs := rent_total + insurance_total
      match opportunity_cost_guarded initial_costs recurring_costs years
          p.return_on_investment with
      | none => none
      | some oc =>
        some (np_round (initial_costs + recurring_costs + oc - initial_costs))

end

/-! ### Helper lemmas -/

/-- At a zero nominal rate, the continuously-compounded rate is zero. -/
lemma continuous_rate_zero (n : ℕ) : continuous_rate 0 n = 0 := by
  simp [continuous_rate]

/-- At a positive nominal rate (and at least one compounding period per
year), the continuously-compounded rate is positive. -/
lemma continuous_rate_pos {rate : ℝ} {n : ℕ} (hr : 0 < rate) (hn : 0 < n) :
    0 < continuous_rate rate n := by
  have hnR : (0 : ℝ) < (n : ℝ) := by exact_mod_cast hn
  have h1 : (1 : ℝ) < 1 + rate / (n : ℝ) := by
    have : 0 < rate / (n : ℝ) := div_pos hr hnR
    linarith
  have h2 : (1 : ℝ) < (1 + rate / (n : ℝ)) ^ n := one_lt_pow₀ h1 hn.ne'
  exact Real.log_pos h2

/-- For a positive continuous rate and positive duration, `exp (cr * T) > 1`. -/
lemma one_lt_exp_mul {cr T : ℝ} (hcr : 0 < cr) (hT : 0 < T) :
    1 < Real.exp (cr * T) := by
  rw [← Real.exp_zero]
  exact Real.exp_lt_exp.mpr (by positivity)

/-- `np_round` moves its argument by at most one half. -/
lemma abs_np_round_sub_le (x : ℝ) : |np_round x - x| ≤ 1 / 2 := by
  unfold np_round
  split_ifs with h
  · have hx : x = (⌊x⌋ : ℝ) + 1 / 2 := by
      conv_lhs => rw [← Int.floor_add_fract x]
      rw [h]
    obtain ⟨m, hm⟩ | ⟨m, hm⟩ := Int.even_or_odd ⌊x⌋
    · have hfloor : ⌊(x + 1) / 2⌋ = m := by
        rw [Int.floor_eq_iff]
        rw [hx, hm]
        push_cast
        constructor <;> linarith
      rw [hfloor, hx, hm]
      push_cast
      rw [show (2 * (m : ℝ)) - ((m : ℝ) + (m : ℝ) + 1 / 2) = -(1 / 2) by ring]
      rw [abs_neg, abs_of_nonneg (by norm_num)]
    · have hfloor : ⌊(x + 1) / 2⌋ = m + 1 := by
        rw [Int.floor_eq_iff]
        rw [hx, hm]
        push_cast
        constructor <;> linarith
      rw [hfloor, hx, hm]
      push_cast
      rw [show (2 * ((m : ℝ) + 1)) - ((2 * (m : ℝ) + 1) + 1 / 2) = 1 / 2 by ring]
      rw [abs_of_nonneg (by norm_num)]
  · rw [abs_sub_comm]
    exact abs_sub_round x

/-- Two reals further than 1 apart cannot round (with `np_round`) to the
same value. -/
lemma np_round_ne_of_one_lt_dist {a b : ℝ} (h : 1 < |a - b|) :
    np_round a ≠ np_round b := by
  intro he
  have ha := abs_np_round_sub_le a
  have hb := abs_np_round_sub_le b
  have hkey : |a - b| ≤ 1 := by
    have h1 : a - b = (a - np_round a) + (np_round b - b) := by rw [he]; ring
    calc |a - b| = |(a - np_round a) + (np_round b - b)| := by rw [h1]
      _ ≤ |a - np_round a| + |np_round b - b| := abs_add _ _
      _ ≤ 1 / 2 + 1 / 2 := by
          rw [abs_sub_comm a (np_round a)]
          exact add_le_add ha hb
      _ = 1 := by norm_num
  linarith

/-- All three fee schedules share this shape; it is continuous everywhere. -/
lemma two_bracket_continuous (r1 r2 th : ℝ) :
    Continuous fun p : ℝ => r1 * min th p + r2 * max 0 (p - th) :=
  (continuous_const.mul (continuous_const.min continuous_id)).add
    (continuous_const.mul (continuous_const.max (continuous_id.sub continuous_const)))

/-- With nonnegative bracket rates, the two-bracket shape is monotone. -/
lemma two_bracket_monotone {r1 r2 : ℝ} (th : ℝ) (h1 : 0 ≤ r1) (h2 : 0 ≤ r2) :
    Monotone fun p : ℝ => r1 * min th p + r2 * max 0 (p - th) := by
  intro a b hab
  have hmin : min th a ≤ min th b := min_le_min le_rfl hab
  have hmax : max 0 (a - th) ≤ max 0 (b - th) := max_le_max le_rfl (by linarith)
  exact add_le_add (mul_le_mul_of_nonneg_left hmin h1) (mul_le_mul_of_nonneg_left hmax h2)

/-- At elapsed years equal to the term, the principal paid is exactly the
whole mortgage. -/
lemma mortgage_balance_principal_at_term (P rate T : ℝ) (hr : 0 < rate) (hT : 0 < T) :
    (mortgage_balance T P rate T).2.1 = P := by
  have hcr : 0 < continuous_rate rate 2 := continuous_rate_pos hr (by norm_num)
  have hE : 1 < Real.exp (continuous_rate rate 2 * T) := one_lt_exp_mul hcr hT
  have hE1 : Real.exp (continuous_rate rate 2 * T) - 1 ≠ 0 :=
    sub_ne_zero.mpr (ne_of_gt hE)
  simp only [mortgage_balance, mortgage_payment, min_self]
  field_simp
  ring

/-- Changing only the deposit changes the rent model's (unrounded) net cost
by exactly `(d₂ - d₁) * (exp(roi * years) - 1)`: the deposit cancels between
`initial_costs` and `proceeds`, but not in the opportunity-cost term. -/
lemma rent_net_deposit_diff (p : RentConfig) (d₁ d₂ : ℝ) :
    (rentBreakdown { p with deposit := d₂ }).net_cost -
      (rentBreakdown { p with deposit := d₁ }).net_cost =
    (d₂ - d₁) * (Real.exp (continuous_rate p.return_on_investment 1 * p.years) - 1) := by
  simp only [rentBreakdown, opportunity_cost]
  ring

/-- A normalised buy configuration with appreciation rate exactly 0
(tax rate 0.247% of a 500,000 price, 6,000/yr maintenance, 5-year horizon). -/
def c1_buy_config : BuyConfig :=
  { years := 5, price := 500000, downpayment := 0.2, mortgage_rate := 0.03,
    mortgage_term := 25, appreciation := 0, return_on_investment := 0.04,
    inflation := 0.02, city := "vancouver", property_tax_rate := 0.00247,
    maintenance := 6000, strata_fee := 3600, insurance := 600, utilities := 1200 }

/-- A normalised rent configuration with rent-increase rate exactly 0
(14,400/yr rent, 5-year horizon). -/
def c1_rent_config : RentConfig :=
  { years := 5, rent := 14400, deposit := 600, rent_increase := 0, insurance := 15,
    return_on_investment := 0.04, inflation := 0.02, utilities := 1200 }

/-- At a zero horizon the recurring-cost divisor `years * 12` is zero. -/
lemma opportunity_guarded_none_of_years_zero (a b roi : ℝ) :
    opportunity_cost_guarded a b 0 roi = none := by
  simp [opportunity_cost_guarded, safe_div]

/-- At a zero market-return rate `exp(roi / 12) - 1` is zero. -/
lemma opportunity_guarded_none_of_roi_zero (a b y : ℝ) :
    opportunity_cost_guarded a b y 0 = none := by
  rcases eq_or_ne (y * 12) 0 with h | h
  · simp [opportunity_cost_guarded, safe_div, h]
  · simp [opportunity_cost_guarded, safe_div, h, continuous_rate_zero]

/-- The rent model hits a zero denominator at horizon 0 or market return 0. -/
lemma rent_guarded_none (p : RentConfig)
    (h : p.years = 0 ∨ p.return_on_investment = 0) : rent_guarded p = none := by
  rcases h1 : safe_div 1 (continuous_rate p.inflation 1) with _ | ii
  · simp [rent_guarded, h1]
  · rcases h2 : safe_div 1 (continuous_rate p.rent_increase 1) with _ | rr
    · simp [rent_guarded, h1, h2]
    · rcases h with hy | hroi
      · simp [rent_guarded, h1, h2, hy, opportunity_guarded_none_of_years_zero]
      · simp [rent_guarded, h1, h2, hroi, opportunity_guarded_none_of_roi_zero]

/-- The buy model hits a zero denominator at horizon 0 or market return 0. -/
lemma buy_guarded_none (p : BuyConfig)
    (h : p.years = 0 ∨ p.return_on_investment = 0) : buy_guarded p = none := by
  rcases h0 : mortgage_balance_guarded p.years (p.price * (1 - p.downpayment))
      p.mortgage_rate p.mortgage_term with _ | mb
  · simp [buy_guarded, h0]
  · rcases h1 : safe_div 1 (continuous_rate p.appreciation 1) with _ | rr
    · simp [buy_guarded, h0, h1]
    · rcases h2 : safe_div 1 (continuous_rate p.inflation 1) with _ | ii
      · simp [buy_guarded, h0, h1, h2]
      · rcases h with hy | hroi
        · simp [buy_guarded, h0, h1, h2, hy, opportunity_guarded_none_of_years_zero]
          cases mortgage_balance_guarded 0 (p.price * (1 - p.downpayment))
              p.mortgage_rate p.mortgage_term <;> rfl
        · simp [buy_guarded, h0, h1, h2, hroi, opportunity_guarded_none_of_roi_zero]

/-- A buy configuration with a zero holding horizon (for C9). -/
def c9_buy_config : BuyConfig :=
  { years := 0, price := 500000, downpayment := 0.2, mortgage_rate := 0.03,
    mortgage_term := 25, appreciation := 0.02, return_on_investment := 0.04,
    inflation := 0.02, city := "vancouver", property_tax_rate := 0.00247,
    maintenance := 6000, strata_fee := 3600, insurance := 600, utilities := 1200 }

/-- A rent configuration with market return exactly 0 (for C9). -/
def c9_rent_config : RentConfig :=
  { years := 5, rent := 14400, deposit := 600, rent_increase := 0.02, insurance := 15,
    return_on_investment := 0, inflation := 0.02, utilities := 1200 }

/-! ### Claims -/

/-- C6: each fee-schedule function (buyer commission, seller commission,
property transfer tax) is continuous at its bracket threshold (no jump) and
monotonically non-decreasing in price. -/
theorem fee_schedules_threshold_continuous_and_monotone :
    (ContinuousAt seller_commission 100000 ∧ ContinuousAt buyer_commission 100000 ∧
      ContinuousAt property_transfer_tax 200000) ∧
    (Monotone seller_commission ∧ Monotone buyer_commission ∧
      Monotone property_transfer_tax) := by
  refine ⟨⟨?_, ?_, ?_⟩, ?_, ?_, ?_⟩
  · exact (two_bracket_continuous 0.07 0.025 100000).continuousAt
  · exact (two_bracket_continuous 0.03125 0.011625 100000).continuousAt
  · exact (two_bracket_continuous 0.01 0.02 200000).continuousAt
  · exact two_bracket_monotone 100000 (by norm_num) (by norm_num)
  · exact two_bracket_monotone 100000 (by norm_num) (by norm_num)
  · exact two_bracket_monotone 200000 (by norm_num) (by norm_num)

/-- C8: `continuous_rate` returns `log((1 + rate / n) ^ n)`; in particular
`continuous_rate rate 1 = log (1 + rate)` and `continuous_rate 0 n = 0`. -/
theorem continuous_rate_matches_formula (rate : ℝ) (n : ℕ) (hn : 1 ≤ n) (hr : 0 < rate) :
    continuous_rate rate n = Real.log ((1 + rate / (n : ℝ)) ^ n) ∧
    continuous_rate rate 1 = Real.log (1 + rate) ∧
    ∀ m : ℕ, continuous_rate 0 m = 0 := by
  refine ⟨rfl, ?_, continuous_rate_zero⟩
  simp [continuous_rate]

/-- C3: for positive principal, rate and term, `mortgage_balance` at any
elapsed time `t ≥ T` has remaining balance zero and principal paid equal to
the principal, and for every elapsed time the result equals the result at
`min t T` (elapsed years are clamped to the term). -/
theorem mortgage_balance_clamped_and_fully_amortized (t P rate T : ℝ)
    (hP : 0 < P) (hr : 0 < rate) (hT : 0 < T) (ht : T ≤ t) :
    (mortgage_balance t P rate T).2.2 = 0 ∧
    (mortgage_balance t P rate T).2.1 = P ∧
    ∀ u : ℝ, mortgage_balance u P rate T = mortgage_balance (min u T) P rate T := by
  have hclamp : ∀ u : ℝ,
      mortgage_balance u P rate T = mortgage_balance (min u T) P rate T := by
    intro u
    simp only [mortgage_balance]
    rw [min_assoc, min_self]
  have heq : mortgage_balance t P rate T = mortgage_balance T P rate T := by
    rw [hclamp t, min_eq_right ht]
  have hprin : (mortgage_balance T P rate T).2.1 = P :=
    mortgage_balance_principal_at_term P rate T hr hT
  refine ⟨?_, ?_, hclamp⟩
  · rw [heq]
    have hbal : (mortgage_balance T P rate T).2.2 =
        P - (mortgage_balance T P rate T).2.1 := rfl
    rw [hbal, hprin, sub_self]
  · rw [heq]
    exact hprin

/-- Witness for C3 at `t = 50`, `P = 150000`, `rate = 0.0229`, `T = 25`
(the spec's clamping fixture). -/
theorem mortgage_balance_clamped_and_fully_amortized_witness :
    ((0 : ℝ) < 150000 ∧ (0 : ℝ) < 0.0229 ∧ (0 : ℝ) < 25 ∧ (25 : ℝ) ≤ 50) ∧
    ((mortgage_balance 50 150000 0.0229 25).2.2 = 0 ∧
      (mortgage_balance 50 150000 0.0229 25).2.1 = 150000 ∧
      ∀ u : ℝ, mortgage_balance u 150000 0.0229 25 =
        mortgage_balance (min u 25) 150000 0.0229 25) :=
  ⟨⟨by norm_num, by norm_num, by norm_num, by norm_num⟩,
    mortgage_balance_clamped_and_fully_amortized 50 150000 0.0229 25
      (by norm_num) (by norm_num) (by norm_num) (by norm_num)⟩

/-- C5: the annual mortgage payment does not depend on the holding horizon
(the total paid after `y ≤ T` years is the fixed annual payment times `y`),
and for fixed positive principal and rate it is strictly decreasing in the
term: a longer term gives a smaller payment. -/
theorem mortgage_payment_horizon_free_and_term_antitone (P rate T₁ T₂ : ℝ)
    (hP : 0 < P) (hr : 0 < rate) (hT₁ : 0 < T₁) (hT : T₁ < T₂) :
    (∀ y : ℝ, y ≤ T₁ →
      (mortgage_balance y P rate T₁).1 + (mortgage_balance y P rate T₁).2.1 =
        mortgage_payment P rate T₁ * y) ∧
    mortgage_payment P rate T₂ < mortgage_payment P rate T₁ := by
  constructor
  · intro y hy
    simp only [mortgage_balance]
    rw [min_eq_left hy]
    ring
  · have hcr : 0 < continuous_rate rate 2 := continuous_rate_pos hr (by norm_num)
    have hE₁ : 1 < Real.exp (continuous_rate rate 2 * T₁) := one_lt_exp_mul hcr hT₁
    have hE₂ : 1 < Real.exp (continuous_rate rate 2 * T₂) :=
      one_lt_exp_mul hcr (hT₁.trans hT)
    have hlt : Real.exp (continuous_rate rate 2 * T₁) <
        Real.exp (continuous_rate rate 2 * T₂) := by
      apply Real.exp_lt_exp.mpr
      exact mul_lt_mul_of_pos_left hT hcr
    simp only [mortgage_payment]
    set c := continuous_rate rate 2 with hc
    have h1 : (0 : ℝ) < Real.exp (c * T₁) - 1 := by linarith
    have h2 : Real.exp (c * T₁) - 1 < Real.exp (c * T₂) - 1 := by linarith
    have hform : ∀ E : ℝ, E - 1 ≠ 0 → c * E / (E - 1) = c + c / (E - 1) := by
      intro E hE
      field_simp
      ring
    have key : c * Real.exp (c * T₂) / (Real.exp (c * T₂) - 1) <
        c * Real.exp (c * T₁) / (Real.exp (c * T₁) - 1) := by
      rw [hform _ (by linarith), hform _ (ne_of_gt h1)]
      have hdiv : c / (Real.exp (c * T₂) - 1) < c / (Real.exp (c * T₁) - 1) :=
        div_lt_div_of_pos_left hcr h1 h2
      linarith
    exact mul_lt_mul_of_pos_left key hP

/-- Witness for C5 at `P = 150000`, `rate = 0.0229`, terms `20 < 25`. -/
theorem mortgage_payment_horizon_free_and_term_antitone_witness :
    ((0 : ℝ) < 150000 ∧ (0 : ℝ) < 0.0229 ∧ (0 : ℝ) < 20 ∧ (20 : ℝ) < 25) ∧
    ((∀ y : ℝ, y ≤ 20 →
      (mortgage_balance y 150000 0.0229 20).1 +
        (mortgage_balance y 150000 0.0229 20).2.1 =
          mortgage_payment 150000 0.0229 20 * y) ∧
      mortgage_payment 150000 0.0229 25 < mortgage_payment 150000 0.0229 20) :=
  ⟨⟨by norm_num, by norm_num, by norm_num, by norm_num⟩,
    mortgage_payment_horizon_free_and_term_antitone 150000 0.0229 20 25
      (by norm_num) (by norm_num) (by norm_num) (by norm_num)⟩

/-- C10: leaving `strata_fee` or `insurance` unspecified makes
`__post_init__` read the nonexistent `home_price` attribute
(`AttributeError`); leaving `maintenance` unspecified makes
`self.maintenance *= 12` raise `TypeError` (once the tax-rate step passed);
so a `BuyConfiguration` can only be constructed by explicitly supplying
`maintenance`, `strata_fee` and `insurance`. -/
theorem buy_configuration_requires_explicit_fees (a : BuyInputs) :
    (a.strata_fee = none ∨ a.insurance = none →
      buyInit a = Except.error (InitError.attributeError "home_price")) ∧
    (a.strata_fee ≠ none → a.insurance ≠ none → a.maintenance = none →
      (a.property_tax_rate ≠ none ∨
        (tax_rates.lookup (str_lower a.city)).isSome = true) →
      buyInit a = Except.error (InitError.typeError
        "unsupported operand type for *=: NoneType and int")) ∧
    (∀ c : BuyConfig, buyInit a = Except.ok c →
      a.maintenance ≠ none ∧ a.strata_fee ≠ none ∧ a.insurance ≠ none) := by
  refine ⟨?_, ?_, ?_⟩
  · rintro (hs | hi)
    · simp [buyInit, hs]
    · cases hs : a.strata_fee
      · simp [buyInit, hs]
      · simp [buyInit, hs, hi]
  · intro hs hi hm htax
    obtain ⟨s, hs'⟩ := Option.ne_none_iff_exists'.mp hs
    obtain ⟨ins, hi'⟩ := Option.ne_none_iff_exists'.mp hi
    rcases htax with h | h
    · obtain ⟨t, ht'⟩ := Option.ne_none_iff_exists'.mp h
      simp [buyInit, resolve_tax_rate, hs', hi', hm, ht']
    · obtain ⟨v, hv⟩ := Option.isSome_iff_exists.mp h
      cases hp : a.property_tax_rate with
      | none => simp [buyInit, resolve_tax_rate, hs', hi', hm, hp, hv]
      | some t => simp [buyInit, resolve_tax_rate, hs', hi', hm, hp]
  · intro c hc
    have h1 : a.strata_fee ≠ none := by
      intro hs
      simp [buyInit, hs] at hc
    have h2 : a.insurance ≠ none := by
      intro hi
      cases hs : a.strata_fee <;> simp [buyInit, hs, hi] at hc
    have h3 : a.maintenance ≠ none := by
      intro hm
      obtain ⟨s, hs⟩ := Option.ne_none_iff_exists'.mp h1
      obtain ⟨ins, hi⟩ := Option.ne_none_iff_exists'.mp h2
      cases hres : resolve_tax_rate a.city a.property_tax_rate <;>
        simp [buyInit, hs, hi, hm, hres] at hc
    exact ⟨h3, h1, h2⟩

/-- Witness for C10: constructing with only `years` and `price` (all fee
fields left to their defaults) fails with the `home_price` AttributeError. -/
theorem buy_configuration_requires_explicit_fees_witness :
    buyInit { years := 5, price := 500000 } =
      Except.error (InitError.attributeError "home_price") :=
  (buy_configuration_requires_explicit_fees { years := 5, price := 500000 }).1
    (Or.inl rfl)

/-- C7 counterexample: a buy scenario with `property_tax_rate` unspecified
and an unknown city ("Paris"), but `strata_fee` left to its default, fails
with the `home_price` AttributeError, not with the unsupported-jurisdiction
error the claim promises for every such construction. -/
theorem unknown_city_default_strata_counterexample :
    buyInit { years := 5, price := 500000, city := "Paris", insurance := some 40 } =
      Except.error (InitError.attributeError "home_price") := rfl

/-- C7 (amended): provided `strata_fee` and `insurance` are explicitly
supplied, an unknown city with `property_tax_rate` unspecified makes
construction fail with the unsupported-jurisdiction assertion (the spec's
`ConfigurationError`), at the construction boundary, rather than silently
defaulting to some rate. -/
theorem unknown_city_fails_at_construction (a : BuyInputs) (s ins : ℝ)
    (hs : a.strata_fee = some s) (hi : a.insurance = some ins)
    (hp : a.property_tax_rate = none)
    (hc : tax_rates.lookup (str_lower a.city) = none) :
    buyInit a = Except.error (InitError.assertionError
      ("Sorry, property tax rate for " ++ a.city ++ " is not known.")) := by
  simp [buyInit, resolve_tax_rate, hs, hi, hp, hc]

/-- Witness for C7's amended theorem: city "Paris" is not in the table. -/
theorem unknown_city_fails_at_construction_witness :
    buyInit { years := 5, price := 500000, city := "Paris",
              maintenance := some 100, strata_fee := some 300,
              insurance := some 40 } =
      Except.error (InitError.assertionError
        ("Sorry, property tax rate for " ++ "Paris" ++ " is not known.")) :=
  unknown_city_fails_at_construction
    { years := 5, price := 500000, city := "Paris", maintenance := some 100,
      strata_fee := some 300, insurance := some 40 }
    300 40 rfl rfl rfl (by rfl)

/-- C4 counterexample: two rent scenarios identical except for the deposit
(0 versus 1,000,000) over a one-year horizon return different net costs —
the deposit does not cancel out of the returned net cost. -/
theorem rent_net_cost_depends_on_deposit_counterexample :
    rent (rentInit { years := 1, rent := 1000, deposit := some 1000000 }) ≠
      rent (rentInit { years := 1, rent := 1000, deposit := some 0 }) := by
  have hcr : continuous_rate (4.0 * 0.01) 1 = Real.log 1.04 := by
    unfold continuous_rate
    norm_num
  have hdiff :
      (rentBreakdown (rentInit { years := 1, rent := 1000, deposit := some 1000000 })).net_cost -
        (rentBreakdown (rentInit { years := 1, rent := 1000, deposit := some 0 })).net_cost
        = 40000 := by
    have h := rent_net_deposit_diff
      (rentInit { years := 1, rent := 1000, deposit := some 0 }) 0 1000000
    have e₂ : ({ rentInit { years := 1, rent := 1000, deposit := some 0 } with
          deposit := (1000000 : ℝ) })
        = rentInit { years := 1, rent := 1000, deposit := some 1000000 } := rfl
    have e₁ : ({ rentInit { years := 1, rent := 1000, deposit := some 0 } with
          deposit := (0 : ℝ) })
        = rentInit { years := 1, rent := 1000, deposit := some 0 } := rfl
    rw [e₂, e₁] at h
    have hroi :
        (rentInit { years := 1, rent := 1000, deposit := some 0 }).return_on_investment
          = 4.0 * 0.01 := rfl
    have hyears :
        (rentInit { years := 1, rent := 1000, deposit := some 0 }).years = 1 := rfl
    rw [hroi, hyears, hcr, mul_one, Real.exp_log (by norm_num)] at h
    rw [h]
    norm_num
  unfold rent
  apply np_round_ne_of_one_lt_dist
  rw [hdiff]
  norm_num

/-- C4 (amended): in the rent model `proceeds` equals `initial_costs` (the
deposit) exactly, so the deposit cancels between those two terms of the net
cost; but it does not cancel out of the net cost altogether, because the
opportunity cost is computed on the deposit: changing only the deposit
changes the unrounded net cost by `(d₂ - d₁) * (exp(roi * years) - 1)`. -/
theorem rent_proceeds_equal_deposit_but_deposit_in_net_cost
    (p : RentConfig) (d₁ d₂ : ℝ) :
    (rentBreakdown p).proceeds = (rentBreakdown p).initial_costs ∧
    (rentBreakdown { p with deposit := d₂ }).net_cost -
      (rentBreakdown { p with deposit := d₁ }).net_cost =
      (d₂ - d₁) * (Real.exp (continuous_rate p.return_on_investment 1 * p.years) - 1) :=
  ⟨rfl, rent_net_deposit_diff p d₁ d₂⟩

/-- C1: the code has no zero-rate fallback.  At growth rate exactly 0 the
closed form multiplies by `1 / r` with `r = 0` (NaN in Python's float
arithmetic; 0 under Lean's `x / 0 = 0` convention), so the buy model's
property-tax and maintenance totals and the rent model's rent total are 0,
not `base * horizon` (which would be 6,175 and 72,000 here). -/
theorem zero_rate_stream_totals_vanish :
    (buyBreakdown c1_buy_config).property_tax_total = 0 ∧
    (buyBreakdown c1_buy_config).maintenance_total = 0 ∧
    (rentBreakdown c1_rent_config).rent_total = 0 ∧
    (buyBreakdown c1_buy_config).property_tax_total ≠
      c1_buy_config.property_tax_rate * c1_buy_config.price * c1_buy_config.years ∧
    (rentBreakdown c1_rent_config).rent_total ≠
      c1_rent_config.rent * c1_rent_config.years := by
  have h1 : (buyBreakdown c1_buy_config).property_tax_total = 0 := by
    simp [buyBreakdown, c1_buy_config, continuous_rate_zero]
  have h2 : (buyBreakdown c1_buy_config).maintenance_total = 0 := by
    simp [buyBreakdown, c1_buy_config, continuous_rate_zero]
  have h3 : (rentBreakdown c1_rent_config).rent_total = 0 := by
    simp [rentBreakdown, c1_rent_config, continuous_rate_zero]
  refine ⟨h1, h2, h3, ?_, ?_⟩
  · rw [h1]
    simp only [c1_buy_config]
    norm_num
  · rw [h3]
    simp only [c1_rent_config]
    norm_num

/-- C2 counterexample: at a negative principal (price) the core returns an
ordinary (negative) number instead of failing with a `DomainError`. -/
theorem negative_principal_returns_number_counterexample :
    mortgage_payment (-150000) 0.0229 25 < 0 := by
  have hcr : 0 < continuous_rate 0.0229 2 :=
    continuous_rate_pos (by norm_num) (by norm_num)
  have hE : 1 < Real.exp (continuous_rate 0.0229 2 * 25) :=
    one_lt_exp_mul hcr (by norm_num)
  simp only [mortgage_payment]
  have hdf : 0 < continuous_rate 0.0229 2 * Real.exp (continuous_rate 0.0229 2 * 25) /
      (Real.exp (continuous_rate 0.0229 2 * 25) - 1) := by
    apply div_pos
    · exact mul_pos hcr (Real.exp_pos _)
    · linarith
  exact mul_neg_of_neg_of_pos (by norm_num) hdf

/-- C2 (amended): the core performs no domain validation: a negative
principal flows through `mortgage_payment` by linearity (yielding the
negation of the positive-principal payment, a number rather than an error),
and any horizon `y ≤ T` — including a negative one — passes unclamped
through `mortgage_balance`, whose total paid is the annual payment times `y`.
The elapsed-years-to-term clamp is the only silent coercion. -/
theorem core_total_no_domain_validation (m rate T y : ℝ) (hy : y ≤ T) :
    mortgage_payment (-m) rate T = -(mortgage_payment m rate T) ∧
    (mortgage_balance y m rate T).1 + (mortgage_balance y m rate T).2.1 =
      mortgage_payment m rate T * y := by
  constructor
  · simp only [mortgage_payment]
    ring
  · simp only [mortgage_balance]
    rw [min_eq_left hy]
    ring

/-- Witness for C2's amended theorem at a negative horizon `y = -5`. -/
theorem core_total_no_domain_validation_witness :
    ((-5 : ℝ) ≤ 25) ∧
    (mortgage_payment (-150000) 0.0229 25 = -(mortgage_payment 150000 0.0229 25) ∧
      (mortgage_balance (-5) 150000 0.0229 25).1 +
        (mortgage_balance (-5) 150000 0.0229 25).2.1 =
        mortgage_payment 150000 0.0229 25 * (-5)) :=
  ⟨by norm_num, core_total_no_domain_validation 150000 0.0229 25 (-5) (by norm_num)⟩

/-- C9: `opportunity_cost` divides by zero at the boundary of its domain —
by `years * 12 = 0` at horizon 0 and by `exp(roi / 12) - 1 = 0` at market
return 0 — and consequently the buy and rent net-cost computations are
undefined (hit a zero denominator) at horizon 0 or market return 0. -/
theorem opportunity_cost_divides_by_zero_at_boundary :
    (∀ a b roi : ℝ, opportunity_cost_guarded a b 0 roi = none) ∧
    (∀ a b y : ℝ, opportunity_cost_guarded a b y 0 = none) ∧
    (∀ p : BuyConfig, p.years = 0 ∨ p.return_on_investment = 0 →
      buy_guarded p = none) ∧
    (∀ p : RentConfig, p.years = 0 ∨ p.return_on_investment = 0 →
      rent_guarded p = none) :=
  ⟨opportunity_guarded_none_of_years_zero, opportunity_guarded_none_of_roi_zero,
    fun p h => buy_guarded_none p h, fun p h => rent_guarded_none p h⟩

/-- Witness for C9: a buy scenario at horizon 0 and a rent scenario at
market return 0 are both undefined. -/
theorem opportunity_cost_divides_by_zero_at_boundary_witness :
    buy_guarded c9_buy_config = none ∧ rent_guarded c9_rent_config = none :=
  ⟨opportunity_cost_divides_by_zero_at_boundary.2.2.1 c9_buy_config (Or.inl rfl),
    opportunity_cost_divides_by_zero_at_boundary.2.2.2 c9_rent_config (Or.inr rfl)⟩

/-- Witness for C8 at `rate = 0.05`, `n = 2`. -/
theorem continuous_rate_matches_formula_witness :
    (1 ≤ 2 ∧ (0 : ℝ) < 0.05) ∧
    (continuous_rate 0.05 2 = Real.log ((1 + 0.05 / ((2 : ℕ) : ℝ)) ^ (2 : ℕ)) ∧
      continuous_rate 0.05 1 = Real.log (1 + 0.05) ∧
      ∀ m : ℕ, continuous_rate 0 m = 0) :=
  ⟨⟨by norm_num, by norm_num⟩,
    continuous_rate_matches_formula 0.05 2 (by norm_num) (by norm_num)⟩

end RentVsBuy
